import Mathlib

/-!
Shallow embedding of `src/script.js`: a client-side annotation store that
persists a per-item record (free text plus an optional embedded image) in
the browser's localStorage, edited through a popup modal or a standalone
explanation page.

Modelling conventions:
* localStorage is a partial map `Store : String → Option StoredVal`.
* A stored value is either the JSON serialization of an object
  (`StoredVal.jsonRecord text image`, each field `Option String` so a
  parseable object with an absent/null field is representable — JS reads
  `obj.text || ''`), or an unparseable string (`StoredVal.garbage`), on
  which `JSON.parse` throws.  `JSON.stringify`/`JSON.parse` are browser
  builtins, not repository code, so they are abstracted by this inductive;
  the stringify of `{text, image}` is `jsonRecord (some text) (some image)`
  and parsing it recovers the fields.
* An uploaded image file is modelled by the data URL the browser's
  `FileReader.readAsDataURL` delivers for it (`ImageFile.dataURL`); the
  encoding step itself is a browser builtin.  The asynchronous completion
  of the read is modelled as running to the end of the save flow.
* DOM elements that the script looks up may be missing; each is an
  `Option` whose `none` means `document.getElementById`/`querySelector`
  returned null.  An element's mutable state is the part the script reads
  or writes (`value`, `src`, `style.display`).
* JS truthiness on the strings involved: `null` and `''` are falsy, every
  other string truthy.  In particular `!currentItemKey` is true both when
  no session is open and when the key is the empty string.
* A JS `TypeError` (null dereference) is modelled by an operation
  returning `none`.
-/

namespace Annot

/-- An image file, identified by the data URL that `readAsDataURL`
produces for it (the encoding a browser builtin performs). -/
structure ImageFile where
  dataURL : String
deriving DecidableEq, Repr

/-- A value held in localStorage: either the JSON text of an object with
optional `text`/`image` string fields, or a string `JSON.parse` rejects. -/
inductive StoredVal where
  | jsonRecord (text image : Option String)
  | garbage (raw : String)
deriving DecidableEq, Repr

/-- localStorage: `getItem` returns `none` for an absent key. -/
abbrev Store : Type := String → Option StoredVal

def emptyStore : Store := fun _ => none

/-- `localStorage.setItem`: overwrites the value at exactly one key. -/
def setItem (st : Store) (k : String) (v : StoredVal) : Store :=
  fun k2 => if k2 = k then some v else st k2

/-- The namespaced storage key `'explanation_' + key` (script.js:42,98,157,181). -/
def storageKey (key : String) : String := "explanation_" ++ key

/-- JS `x || ''` applied to a field that is a string or absent/null. -/
def jsOr (o : Option String) : String := o.getD ""

/-- `JSON.parse` on a stored value: succeeds with the two fields on a
record, throws (`none`) on garbage. -/
def parseStored : StoredVal → Option (Option String × Option String)
  | .jsonRecord t i => some (t, i)
  | .garbage _ => none

/-- The record the load path produces: `text` and `image` strings, with
`""` encoding an absent image (spec storage format). -/
structure AnnotationRecord where
  text : String
  image : String
deriving DecidableEq, Repr

/-- The load logic shared by `openModal` (script.js:42-53) and
`initExplanationPage` (script.js:157-173): fetch
`explanation_<key>`, default both fields to `''` when the entry is
absent or unparseable (the parse failure is only logged), else read
`obj.text || ''` and `obj.image || ''`. -/
def loadRecord (st : Store) (key : String) : AnnotationRecord :=
  match st (storageKey key) with
  | none => ⟨"", ""⟩
  | some v =>
    match parseStored v with
    | none => ⟨"", ""⟩
    | some (t, i) => ⟨jsOr t, jsOr i⟩

/-- The image preview element: its `src` and `style.display`. -/
structure ImgElem where
  src : String
  display : String
deriving DecidableEq, Repr

/-- The modal container's queryable children and its own display style.
`textareaVal`: the textarea's value when the element exists.
`imgPreview`: the `.image-preview` element when it exists.
`fileSel`: the file input when it exists, holding the selected file if any. -/
structure Modal where
  textareaVal : Option String
  imgPreview : Option ImgElem
  fileSel : Option (Option ImageFile)
  display : String
deriving DecidableEq, Repr

/-- The state the popup-side script touches: localStorage, the module-level
`currentItemKey`, and the `#modal` element when the page has one. -/
structure PageState where
  store : Store
  currentItemKey : Option String
  modal : Option Modal

/-- script.js:37-72 `openModal(key)`: set `currentItemKey` first, return if
no `#modal`, load the record, populate each child element that exists
(textarea value; preview src/display — `src` is left untouched when the
record has no image, only `display` is set to `'none'`; file input
cleared), then show the modal. -/
def openModal (s : PageState) (key : String) : PageState :=
  let s1 : PageState := { s with currentItemKey := some key }
  match s1.modal with
  | none => s1
  | some m =>
    let r := loadRecord s1.store key
    let m1 := match m.textareaVal with
      | some _ => { m with textareaVal := some r.text }
      | none => m
    let m2 := match m1.imgPreview with
      | some p =>
        if r.image ≠ "" then { m1 with imgPreview := some ⟨r.image, "block"⟩ }
        else { m1 with imgPreview := some ⟨p.src, "none"⟩ }
      | none => m1
    let m3 := match m2.fileSel with
      | some _ => { m2 with fileSel := some none }
      | none => m2
    { s1 with modal := some { m3 with display := "flex" } }

/-- script.js:77-81 `closeModal()`: hide the modal if present, clear the
session key; localStorage is never touched. -/
def closeModal (s : PageState) : PageState :=
  let s1 := match s.modal with
    | some m => { s with modal := some { m with display := "none" } }
    | none => s
  { s1 with currentItemKey := none }

/-- script.js:96-100 `storeContent(imageData)` inside `saveModal`: build
`{text, image: imageData || ''}` (`imageData` is always a string here, and
`s || ''` is the identity on strings), serialize, write under the
namespaced key, close the modal. -/
def storeContent (s : PageState) (key text imageData : String) : PageState :=
  closeModal
    { s with
      store := setItem s.store (storageKey key)
        (.jsonRecord (some text) (some imageData)) }

/-- script.js:88-119 `saveModal()`: no-op without a modal or with a falsy
`currentItemKey` (so also for the empty-string key).  Text is
`textarea ? textarea.value : ''`.  If a file is selected, its data URL is
read (preview updated, then stored); otherwise the preview's src is reused
when the preview exists and is displayed, else the empty image is stored. -/
def saveModal (s : PageState) : PageState :=
  match s.modal, s.currentItemKey with
  | some m, some key =>
    if key = "" then s
    else
      let text := jsOr m.textareaVal
      match m.fileSel with
      | some (some f) =>
        let s1 := match m.imgPreview with
          | some _ =>
            { s with modal := some { m with imgPreview := some ⟨f.dataURL, "block"⟩ } }
          | none => s
        storeContent s1 key text f.dataURL
      | some none =>
        let existing := match m.imgPreview with
          | some p => if p.display ≠ "none" then p.src else ""
          | none => ""
        storeContent s key text existing
      | none =>
        let existing := match m.imgPreview with
          | some p => if p.display ≠ "none" then p.src else ""
          | none => ""
        storeContent s key text existing
  | _, _ => s

/-- script.js:126-129 `expandModal()`: no-op when `currentItemKey` is falsy
(null or the empty string); otherwise opens `explanation.html?item=<key>`
in a new context.  The result is the item key of the opened full-page
editor, `none` when nothing opens (the `encodeURIComponent`/query-string
round trip is a browser builtin). -/
def expandModal (s : PageState) : Option String :=
  match s.currentItemKey with
  | some key => if key = "" then none else some key
  | none => none

/-- User edit: typing `t` into the modal's textarea (exists only if the
element does). -/
def setText (s : PageState) (t : String) : PageState :=
  match s.modal with
  | some m =>
    match m.textareaVal with
    | some _ => { s with modal := some { m with textareaVal := some t } }
    | none => s
  | none => s

/-- User edit: choosing a file (or clearing the choice) in the modal's
file input. -/
def selectFile (s : PageState) (sel : Option ImageFile) : PageState :=
  match s.modal with
  | some m =>
    match m.fileSel with
    | some _ => { s with modal := some { m with fileSel := some sel } }
    | none => s
  | none => s

/-- The explanation page's elements: `#item-heading` (its textContent),
`#item-text` (value), `#item-image`, `#item-file`, and whether
`#save-explanation` exists (the save handler is attached only then). -/
structure FPage where
  headingText : Option String
  textareaVal : Option String
  imgPreview : Option ImgElem
  fileSel : Option (Option ImageFile)
  hasSaveBtn : Bool
deriving DecidableEq, Repr

/-- JS `\w` (ASCII word character) used by the `/\b\w/g` regex. -/
def isWordChar (c : Char) : Bool := c.isAlphanum || c = '_'

/-- Uppercase each word character standing at a word boundary, i.e. whose
predecessor is not a word character (`prevWord` tracks the predecessor;
the start of the string is a boundary). -/
def capWordStarts : List Char → Bool → List Char
  | [], _ => []
  | c :: rest, prevWord =>
    (if isWordChar c && !prevWord then c.toUpper else c) ::
      capWordStarts rest (isWordChar c)

/-- script.js:153: `item.replace` of every dash with a space, then a
global-regex replace uppercasing every word character at a word boundary
(the `c.toUpperCase()` callback). -/
def formatHeading (item : String) : String :=
  let spaced := item.data.map (fun c => if c = '-' then ' ' else c)
  String.mk (capWordStarts spaced false)

/-- script.js:147-173, the synchronous part of `initExplanationPage()`:
return if the `item` query parameter is absent or falsy (empty); set the
heading from `formatHeading` if the heading element exists; load the
stored record, and when present and parseable populate the textarea and
the preview (each only if the element exists).  On absent entry or parse
error (logged) the fields are left untouched. -/
def initExplanationPage (st : Store) (item : Option String) (p : FPage) : FPage :=
  match item with
  | none => p
  | some it =>
    if it = "" then p
    else
      let p1 := match p.headingText with
        | some _ => { p with headingText := some (formatHeading it) }
        | none => p
      match st (storageKey it) with
      | none => p1
      | some v =>
        match parseStored v with
        | none => p1
        | some (t, i) =>
          let p2 := match p1.textareaVal with
            | some _ => { p1 with textareaVal := some (jsOr t) }
            | none => p1
          match p2.imgPreview with
          | some pr =>
            if jsOr i ≠ "" then { p2 with imgPreview := some ⟨jsOr i, "block"⟩ }
            else { p2 with imgPreview := some ⟨pr.src, "none"⟩ }
          | none => p2

/-- script.js:177-198, the body of the explanation page's save-click
handler (attached only when `#save-explanation` exists).  If a file is
selected its data URL is read and the preview updated; either way
`storeContent` builds `{text: textarea.value, image: imageData || ''}` —
reading `textarea.value` WITHOUT a null guard, so a missing `#item-text`
throws a TypeError, modelled by `none`.  On success the new store and
page state are returned (`alert` elided). -/
def pageSave (st : Store) (item : String) (p : FPage) : Option (Store × FPage) :=
  match p.fileSel with
  | some (some f) =>
    let p1 := match p.imgPreview with
      | some _ => { p with imgPreview := some ⟨f.dataURL, "block"⟩ }
      | none => p
    match p1.textareaVal with
    | some tv =>
      some (setItem st (storageKey item) (.jsonRecord (some tv) (some f.dataURL)), p1)
    | none => none
  | some none =>
    let existing := match p.imgPreview with
      | some pr => if pr.display ≠ "none" then pr.src else ""
      | none => ""
    match p.textareaVal with
    | some tv =>
      some (setItem st (storageKey item) (.jsonRecord (some tv) (some existing)), p)
    | none => none
  | none =>
    let existing := match p.imgPreview with
      | some pr => if pr.display ≠ "none" then pr.src else ""
      | none => ""
    match p.textareaVal with
    | some tv =>
      some (setItem st (storageKey item) (.jsonRecord (some tv) (some existing)), p)
    | none => none

/-- What the user can see in the popup when all its fields exist: the
textarea's text, the preview's src when its display is not `'none'`, and
the file chooser's selection.  `none` when the modal or one of these
elements is missing. -/
structure VisibleFields where
  text : String
  image : Option String
  file : Option ImageFile
deriving DecidableEq, Repr

def visFields (s : PageState) : Option VisibleFields :=
  match s.modal with
  | none => none
  | some m =>
    match m.textareaVal, m.imgPreview, m.fileSel with
    | some tv, some pr, some sel =>
      some ⟨tv, if pr.display ≠ "none" then some pr.src else none, sel⟩
    | _, _, _ => none

/-- The newly supplied file, if any: the file input's selection when the
input exists. -/
def selectedFile (sel : Option (Option ImageFile)) : Option ImageFile :=
  sel.getD none

/-- The currently displayed image: the preview's src when the preview
exists and its display is not `'none'`. -/
def displayedImage (pr : Option ImgElem) : Option String :=
  match pr with
  | some p => if p.display ≠ "none" then some p.src else none
  | none => none

/-- The encoded form of an optional image: the data URL of the file when
present, the empty encoding (absent image) otherwise. -/
def encodeOf : Option ImageFile → String
  | some f => f.dataURL
  | none => ""

/-- Modelled from the spec's wording of the save precedence: new image
bytes win; else the still-displayed previous image; else no image
(encoded as `""`). -/
def specImagePrecedence (newFile : Option ImageFile) (displayed : Option String) : String :=
  match newFile with
  | some f => f.dataURL
  | none =>
    match displayed with
    | some i => i
    | none => ""

/-! Concrete fixtures used by witnesses and counterexamples. -/

/-- A modal with all children present, empty and hidden. -/
def modalClean : Modal := ⟨some "", some ⟨"", "none"⟩, some none, "none"⟩

/-- A page with an empty store and a clean modal. -/
def pageClean : PageState := ⟨emptyStore, none, some modalClean⟩

/-- A store already holding a record with an image for key `cash`. -/
def storeWithImage : Store :=
  setItem emptyStore (storageKey "cash") (.jsonRecord (some "hello") (some "IMG"))

/-- A page whose store already has an image for `cash`. -/
def pageWithImage : PageState := ⟨storeWithImage, none, some modalClean⟩

/-- A store whose entry for `cash` is unparseable. -/
def storeGarbage : Store :=
  setItem emptyStore (storageKey "cash") (.garbage "not json")

/-! Helper lemmas. -/

/-- `setItem` hits the written key. -/
theorem setItem_same (st : Store) (k : String) (v : StoredVal) :
    setItem st k v k = some v := by simp [setItem]

/-- `setItem` leaves every other key untouched. -/
theorem setItem_other (st : Store) (k : String) (v : StoredVal)
    (k2 : String) (h : k2 ≠ k) : setItem st k v k2 = st k2 := by
  simp [setItem, h]

/-- Loading what a save wrote: a full `jsonRecord` yields its fields. -/
theorem loadRecord_setItem_same (st : Store) (k : String) (t i : String) :
    loadRecord (setItem st (storageKey k) (.jsonRecord (some t) (some i))) k
      = ⟨t, i⟩ := by
  simp [loadRecord, setItem, parseStored, jsOr]

/-- `openModal` on a page whose modal has every child present. -/
theorem openModal_full (st : Store) (ck : Option String) (tv : String)
    (pr : ImgElem) (sel : Option ImageFile) (d : String) (k : String) :
    openModal ⟨st, ck, some ⟨some tv, some pr, some sel, d⟩⟩ k
      = ⟨st, some k, some ⟨some (loadRecord st k).text,
          some (if (loadRecord st k).image ≠ ""
            then ⟨(loadRecord st k).image, "block"⟩ else ⟨pr.src, "none"⟩),
          some none, "flex"⟩⟩ := by
  by_cases h : (loadRecord st k).image = "" <;> simp [openModal, h]

/-- A key either keeps its old value or now holds a full two-field
record after a `setItem` of such a record. -/
theorem setItem_record_cases (st : Store) (K : String) (t i : String)
    (k2 : String) :
    setItem st K (.jsonRecord (some t) (some i)) k2 = st k2 ∨
    ∃ t0 i0, setItem st K (.jsonRecord (some t) (some i)) k2
      = some (.jsonRecord (some t0) (some i0)) := by
  by_cases h : k2 = K
  · exact Or.inr ⟨t, i, by simp [setItem, h]⟩
  · exact Or.inl (by simp [setItem, h])

/-! Theorems settling the claims. -/

/-- C3: for every key `k`, if the store has no entry for `k` or the stored
entry is unparseable, the load path does not fail: it yields the default
record with empty text and no image (the parse failure is only logged),
so load always succeeds with a usable record — `loadRecord` is total. -/
theorem load_default_on_absent_or_garbage (st : Store) (k : String)
    (h : st (storageKey k) = none ∨ ∃ g, st (storageKey k) = some (.garbage g)) :
    loadRecord st k = ⟨"", ""⟩ := by
  rcases h with h | ⟨g, h⟩ <;> simp [loadRecord, h, parseStored]

/-- Witness for C3 at a never-saved key and at an unparseable entry. -/
theorem load_default_on_absent_or_garbage_witness :
    ((emptyStore (storageKey "never") = none ∨
        ∃ g, emptyStore (storageKey "never") = some (.garbage g)) ∧
      loadRecord emptyStore "never" = ⟨"", ""⟩) ∧
    ((storeGarbage (storageKey "cash") = none ∨
        ∃ g, storeGarbage (storageKey "cash") = some (.garbage g)) ∧
      loadRecord storeGarbage "cash" = ⟨"", ""⟩) :=
  ⟨⟨Or.inl rfl, load_default_on_absent_or_garbage emptyStore "never" (Or.inl rfl)⟩,
   ⟨Or.inr ⟨"not json", by decide⟩,
    load_default_on_absent_or_garbage storeGarbage "cash" (Or.inr ⟨"not json", by decide⟩)⟩⟩

/-- C8: loading is non-destructive and closing writes nothing: for every
state and key, `openModal`, `closeModal`, and an open followed by a close
leave the localStorage component exactly as it was. -/
theorem close_without_save_preserves_store (s : PageState) (k : String) :
    (openModal s k).store = s.store ∧ (closeModal s).store = s.store ∧
    (closeModal (openModal s k)).store = s.store := by
  obtain ⟨st, ck, m⟩ := s
  cases m with
  | none => exact ⟨rfl, rfl, rfl⟩
  | some m =>
    refine ⟨?_, ?_, ?_⟩ <;> simp [openModal, closeModal]

/-- C5: on the full-page editor, whenever the heading element exists and
the item identifier is non-falsy, the heading shown is the identifier
with dashes replaced by spaces and word-boundary characters uppercased
(`formatHeading`, the code's derivation); in particular
`item=variance-analysis` yields the heading `"Variance Analysis"`. -/
theorem heading_derived_from_item (st : Store) (h0 : String) (tv : Option String)
    (pr : Option ImgElem) (sel : Option (Option ImageFile)) (b : Bool)
    (item : String) (hne : item ≠ "") :
    (initExplanationPage st (some item) ⟨some h0, tv, pr, sel, b⟩).headingText
      = some (formatHeading item) ∧
    formatHeading "variance-analysis" = "Variance Analysis" := by
  refine ⟨?_, by decide⟩
  cases tv <;> cases pr <;>
    simp only [initExplanationPage, if_neg hne] <;>
    (repeat' split) <;> rfl

/-- Witness for C5 at `item=variance-analysis` on an empty store. -/
theorem heading_derived_from_item_witness :
    ("variance-analysis" ≠ "") ∧
    ((initExplanationPage emptyStore (some "variance-analysis")
        ⟨some "", none, none, none, false⟩).headingText
      = some (formatHeading "variance-analysis") ∧
    formatHeading "variance-analysis" = "Variance Analysis") :=
  ⟨by decide,
   heading_derived_from_item emptyStore "" none none none false
     "variance-analysis" (by decide)⟩

/-- C7: opening the popup for a key `k2` after any session in which `k1`
was opened (and possibly edited — none of which touches the store)
replaces every visible field with `k2`'s record: the textarea holds
`k2`'s text, the preview shows exactly `k2`'s image (hidden when `k2`
has none), and the file chooser is cleared.  The right-hand side depends
only on the store and `k2`, so nothing of `k1`'s content remains
visible. -/
theorem open_k2_replaces_visible_fields (st : Store) (ck : Option String)
    (tv : String) (pr : ImgElem) (sel : Option ImageFile) (d : String)
    (k1 k2 : String) :
    visFields (openModal
        (openModal ⟨st, ck, some ⟨some tv, some pr, some sel, d⟩⟩ k1) k2)
      = some ⟨(loadRecord st k2).text,
          if (loadRecord st k2).image ≠ "" then some (loadRecord st k2).image
            else none,
          none⟩ := by
  by_cases h1 : (loadRecord st k1).image = "" <;>
  by_cases h2 : (loadRecord st k2).image = "" <;>
  simp [openModal, visFields, h1, h2]

/-- C1 (counterexample): the round-trip claim fails as stated at two
concrete inputs.  (1) With a prior stored image for `"cash"`, saving
(`t = "note"`, no new image) and loading yields image `"IMG"`, not the
absent image the claim requires for `img = none`.  (2) For the empty
key, `saveModal`'s falsy-key guard makes the save a no-op, so loading
yields text `""` instead of the saved `"note"`. -/
theorem roundTrip_counterexample :
    (loadRecord (saveModal (selectFile (setText
        (openModal pageWithImage "cash") "note") none)).store "cash"
      = ⟨"note", "IMG"⟩ ∧ ("IMG" : String) ≠ "") ∧
    (loadRecord (saveModal (selectFile (setText
        (openModal pageClean "") "note") none)).store ""
      = ⟨"", ""⟩ ∧ ("" : String) ≠ "note") := by
  refine ⟨⟨by decide, by decide⟩, ⟨by decide, by decide⟩⟩

/-- C1 (amended): for every NON-EMPTY key `k`, text `t` and optional
image `img`, opening the popup for `k`, entering `t`, selecting `img`
and saving, then loading `k`, yields text `t` verbatim (including the
empty string) and image `encode img` — provided that, when `img` is
none, no image is displayed for `k` after opening (in particular when
`k` has no stored image); otherwise the displayed image is kept, and
for the empty key the save is a no-op (see the counterexample). -/
theorem roundTrip_amended (st : Store) (ck : Option String) (tv : String)
    (pr : ImgElem) (sel : Option ImageFile) (d : String)
    (k t : String) (img : Option ImageFile)
    (hk : k ≠ "")
    (hprev : img = none → (loadRecord st k).image = "") :
    loadRecord (saveModal (selectFile (setText
        (openModal ⟨st, ck, some ⟨some tv, some pr, some sel, d⟩⟩ k) t) img)).store k
      = ⟨t, encodeOf img⟩ := by
  rw [openModal_full]
  cases img with
  | none =>
    have h0 : (loadRecord st k).image = "" := hprev rfl
    rw [h0]
    simp [setText, selectFile, saveModal, storeContent, closeModal,
      jsOr, hk, encodeOf, loadRecord_setItem_same]
  | some f =>
    by_cases h0 : (loadRecord st k).image = "" <;>
      simp [setText, selectFile, saveModal, storeContent, closeModal,
        jsOr, hk, h0, encodeOf, loadRecord_setItem_same]

/-- Witness for C1's amended theorem: the spec's own scenario
`save("cash", "Operating cash balance", none)` then `load("cash")` on a
fresh store. -/
theorem roundTrip_amended_witness :
    ("cash" : String) ≠ "" ∧
    loadRecord (saveModal (selectFile (setText
        (openModal pageClean "cash") "Operating cash balance") none)).store "cash"
      = ⟨"Operating cash balance", ""⟩ :=
  ⟨by decide,
   roundTrip_amended emptyStore none "" ⟨"", "none"⟩ none "none"
     "cash" "Operating cash balance" none (by decide) (fun _ => by decide)⟩

/-- C2: on every save the persisted image follows the precedence
`specImagePrecedence`: a newly supplied file's data URL wins; otherwise
the preview's image when the preview exists and is displayed (its
display is not `'none'`); otherwise the empty image.  Both save paths
agree: the popup's `saveModal` (for any combination of present/absent
elements) and the full-page handler `pageSave`. -/
theorem save_image_precedence (st : Store) (tv : Option String)
    (pr : Option ImgElem) (sel : Option (Option ImageFile)) (d : String)
    (hg : Option String) (tv2 : String) (pr2 : Option ImgElem)
    (sel2 : Option (Option ImageFile)) (b : Bool)
    (k : String) (hk : k ≠ "") :
    (saveModal ⟨st, some k, some ⟨tv, pr, sel, d⟩⟩).store (storageKey k)
      = some (.jsonRecord (some (jsOr tv))
          (some (specImagePrecedence (selectedFile sel) (displayedImage pr)))) ∧
    (∃ p2, pageSave st k ⟨hg, some tv2, pr2, sel2, b⟩
      = some (setItem st (storageKey k)
          (.jsonRecord (some tv2)
            (some (specImagePrecedence (selectedFile sel2) (displayedImage pr2)))),
        p2)) := by
  constructor
  · rcases sel with _ | sel2m
    · rcases pr with _ | p <;>
        simp [saveModal, storeContent, closeModal, setItem, hk,
          specImagePrecedence, selectedFile, displayedImage] <;>
        split <;> simp
    · rcases sel2m with _ | f <;> rcases pr with _ | p <;>
        simp [saveModal, storeContent, closeModal, setItem, hk,
          specImagePrecedence, selectedFile, displayedImage] <;>
        split <;> simp
  · rcases sel2 with _ | s2
    · rcases pr2 with _ | p <;>
        simp [pageSave, specImagePrecedence, selectedFile, displayedImage] <;>
        split <;> simp
    · rcases s2 with _ | f <;> rcases pr2 with _ | p <;>
        simp [pageSave, specImagePrecedence, selectedFile, displayedImage] <;>
        split <;> simp

/-- Witness for C2: no new file, a displayed preview image `"IMG"` — both
paths persist `"IMG"` unchanged. -/
theorem save_image_precedence_witness :
    ("cash" : String) ≠ "" ∧
    ((saveModal ⟨emptyStore, some "cash",
        some ⟨some "t", some ⟨"IMG", "block"⟩, some none, "flex"⟩⟩).store
          (storageKey "cash")
      = some (.jsonRecord (some (jsOr (some "t")))
          (some (specImagePrecedence (selectedFile (some none))
            (displayedImage (some ⟨"IMG", "block"⟩))))) ∧
    (∃ p2, pageSave emptyStore "cash"
        ⟨some "Cash", some "t", some ⟨"IMG", "block"⟩, some none, true⟩
      = some (setItem emptyStore (storageKey "cash")
          (.jsonRecord (some "t")
            (some (specImagePrecedence (selectedFile (some none))
              (displayedImage (some ⟨"IMG", "block"⟩))))),
        p2))) :=
  ⟨by decide,
   save_image_precedence emptyStore (some "t") (some ⟨"IMG", "block"⟩)
     (some none) "flex" (some "Cash") "t" (some ⟨"IMG", "block"⟩)
     (some none) true "cash" (by decide)⟩

/-- C4: every save writes the record as one atomic unit: the store after a
save is exactly the old store with the single key `explanation_<itemKey>`
rebound to one serialized object carrying both string fields (text and
image, image `""` when absent) — never a partial update.  Shown for both
save paths, together with the `setItem` facts that the written key's prior
value is fully replaced and every other key is untouched. -/
theorem save_atomic_record (st : Store) (tv : Option String)
    (pr : Option ImgElem) (sel : Option (Option ImageFile)) (d : String)
    (hg : Option String) (tv2 : String) (pr2 : Option ImgElem)
    (sel2 : Option (Option ImageFile)) (b : Bool) (st2 : Store) (p2 : FPage)
    (v : StoredVal) (k2 k : String) (hk : k ≠ "")
    (hpage : pageSave st k ⟨hg, some tv2, pr2, sel2, b⟩ = some (st2, p2))
    (hk2 : k2 ≠ storageKey k) :
    ((saveModal ⟨st, some k, some ⟨tv, pr, sel, d⟩⟩).store
      = setItem st (storageKey k) (.jsonRecord (some (jsOr tv))
          (some (specImagePrecedence (selectedFile sel) (displayedImage pr))))) ∧
    (st2 = setItem st (storageKey k) (.jsonRecord (some tv2)
        (some (specImagePrecedence (selectedFile sel2) (displayedImage pr2))))) ∧
    (setItem st (storageKey k) v (storageKey k) = some v) ∧
    (setItem st (storageKey k) v k2 = st k2) := by
  refine ⟨?_, ?_, setItem_same st (storageKey k) v,
    setItem_other st (storageKey k) v k2 hk2⟩
  · rcases sel with _ | s2m
    · rcases pr with _ | p <;>
        simp [saveModal, hk, storeContent, closeModal, specImagePrecedence,
          selectedFile, displayedImage] <;>
        split <;> simp
    · rcases s2m with _ | f <;> rcases pr with _ | p <;>
        simp [saveModal, hk, storeContent, closeModal, specImagePrecedence,
          selectedFile, displayedImage] <;>
        split <;> simp
  · rcases sel2 with _ | s2m
    · rcases pr2 with _ | p
      · simp [pageSave] at hpage
        rw [← hpage.1]; simp [specImagePrecedence, selectedFile, displayedImage]
      · by_cases hd : p.display = "none" <;>
          simp [pageSave, hd] at hpage <;>
          rw [← hpage.1] <;>
          simp [specImagePrecedence, selectedFile, displayedImage, hd]
    · rcases s2m with _ | f
      · rcases pr2 with _ | p
        · simp [pageSave] at hpage
          rw [← hpage.1]; simp [specImagePrecedence, selectedFile, displayedImage]
        · by_cases hd : p.display = "none" <;>
            simp [pageSave, hd] at hpage <;>
            rw [← hpage.1] <;>
            simp [specImagePrecedence, selectedFile, displayedImage, hd]
      · rcases pr2 with _ | p <;>
          simp [pageSave] at hpage <;>
          rw [← hpage.1] <;>
          simp [specImagePrecedence, selectedFile, displayedImage]

/-- Witness for C4: popup save with no file, full-page save with no file,
then the setItem facts, all at key `cash`. -/
theorem save_atomic_record_witness :
    ((saveModal ⟨emptyStore, some "cash",
        some ⟨some "t", some ⟨"IMG", "block"⟩, some none, "flex"⟩⟩).store
      = setItem emptyStore (storageKey "cash") (.jsonRecord (some (jsOr (some "t")))
          (some (specImagePrecedence (selectedFile (some none))
            (displayedImage (some ⟨"IMG", "block"⟩)))))) ∧
    ((setItem emptyStore (storageKey "cash")
        (.jsonRecord (some "txt") (some "")))
      = setItem emptyStore (storageKey "cash") (.jsonRecord (some "txt")
          (some (specImagePrecedence (selectedFile (some none))
            (displayedImage (none : Option ImgElem)))))) ∧
    (setItem emptyStore (storageKey "cash") (.garbage "old") (storageKey "cash")
      = some (.garbage "old")) ∧
    (setItem emptyStore (storageKey "cash") (.garbage "old") "explanation_other"
      = emptyStore "explanation_other") :=
  save_atomic_record emptyStore (some "t") (some ⟨"IMG", "block"⟩) (some none)
    "flex" (some "Cash") "txt" none (some none) true
    (setItem emptyStore (storageKey "cash") (.jsonRecord (some "txt") (some "")))
    ⟨some "Cash", some "txt", none, some none, true⟩
    (.garbage "old") "explanation_other" "cash" (by decide) rfl
    (by decide)

/-- C6 (counterexample): the full-page save handler does not recover from
a missing text area: with the save trigger present but `#item-text`
absent, the save fails (a TypeError reading `textarea.value`, modelled by
`none`) instead of skipping the dependent step. -/
theorem pageSave_missing_textarea_fails :
    pageSave emptyStore "cash"
      ⟨some "Cash", none, some ⟨"IMG", "block"⟩, some none, true⟩ = none := rfl

/-- C6 (amended): whenever an expected page element is missing, each
operation recovers locally by skipping only the dependent step — with one
exception: the full-page save handler reads the text area
unconditionally, so when the save trigger exists but the text area is
missing, the save fails rather than recovering.  Shown: popup open, save
and close are no-ops without `#modal`; a modal missing its textarea is
still shown with only that step skipped; the full-page save succeeds
whenever the text area exists (preview and file input may be missing);
and it fails exactly when the text area is missing. -/
theorem missing_elements_skipped (st : Store) (ck : Option String) (k : String)
    (pr : Option ImgElem) (sel : Option (Option ImageFile)) (d : String)
    (hg : Option String) (tv2 : String) (pr2 : Option ImgElem)
    (sel2 : Option (Option ImageFile)) (b : Bool) :
    (openModal ⟨st, ck, none⟩ k = ⟨st, some k, none⟩) ∧
    (saveModal ⟨st, ck, none⟩ = ⟨st, ck, none⟩) ∧
    (closeModal ⟨st, ck, none⟩ = ⟨st, none, none⟩) ∧
    (∃ m2, (openModal ⟨st, ck, some ⟨none, pr, sel, d⟩⟩ k).modal = some m2 ∧
      m2.display = "flex" ∧ m2.textareaVal = none) ∧
    ((pageSave st k ⟨hg, some tv2, pr2, sel2, b⟩).isSome = true) ∧
    (pageSave st k ⟨hg, none, pr2, sel2, b⟩ = none) := by
  refine ⟨rfl, rfl, rfl, ?_, ?_, ?_⟩
  · rcases pr with _ | p <;> rcases sel with _ | s2 <;>
      by_cases h : (loadRecord st k).image = "" <;>
      simp [openModal, h]
  · rcases sel2 with _ | s2m
    · rcases pr2 with _ | p <;> simp [pageSave]
    · rcases s2m with _ | f <;> rcases pr2 with _ | p <;> simp [pageSave]
  · rcases sel2 with _ | s2m
    · rcases pr2 with _ | p <;> simp [pageSave]
    · rcases s2m with _ | f <;> rcases pr2 with _ | p <;> simp [pageSave]

/-- C9 (counterexample): for the empty-string key the claim's parenthesis
fails: `openModal('')` on a modal-less page does set the session key to
`''`, but a later `expandModal` is a no-op (the key is falsy in JS), so
no full-page editor opens for it. -/
theorem openModal_emptyKey_expand_counterexample :
    (openModal ⟨emptyStore, none, none⟩ "").currentItemKey = some "" ∧
    expandModal (openModal ⟨emptyStore, none, none⟩ "") = none :=
  ⟨rfl, rfl⟩

/-- C9 (amended): `openModal(k)` sets the module's session key to `k`
before checking that the modal element exists — for every state, with or
without a modal — and on a page with no modal nothing else changes; for
every NON-EMPTY `k` a later `expandModal` then opens the full-page
editor for `k` (for the empty key `expandModal` is a no-op, its guard
treating the falsy key as no session). -/
theorem openModal_sets_key_before_modal_check (s : PageState) (st : Store)
    (ck : Option String) (k : String) (hk : k ≠ "") :
    ((openModal s k).currentItemKey = some k) ∧
    (openModal ⟨st, ck, none⟩ k = ⟨st, some k, none⟩) ∧
    (expandModal (openModal ⟨st, ck, none⟩ k) = some k) := by
  refine ⟨?_, rfl, by simp [openModal, expandModal, hk]⟩
  obtain ⟨st0, ck0, m⟩ := s
  cases m with
  | none => rfl
  | some m => simp [openModal]

/-- Witness for C9's amended theorem at key `cash`. -/
theorem openModal_sets_key_before_modal_check_witness :
    ((openModal ⟨emptyStore, none, none⟩ "cash").currentItemKey = some "cash") ∧
    (openModal ⟨emptyStore, none, none⟩ "cash" = ⟨emptyStore, some "cash", none⟩) ∧
    (expandModal (openModal ⟨emptyStore, none, none⟩ "cash") = some "cash") :=
  openModal_sets_key_before_modal_check ⟨emptyStore, none, none⟩ emptyStore
    none "cash" (by decide)

/-- C10: every value either save path writes is the serialization of an
object whose text and image fields are both strings: after a popup or
full-page save, each key either kept its old value or holds a full
two-field `jsonRecord`; parsing such a record never fails (the stored
fields come back as strings), so a load of a key only ever written by
these saves never takes the parse-error branch. -/
theorem saves_write_only_parseable_records (s : PageState) (k2 : String)
    (st : Store) (it : String) (hg : Option String) (tvo : Option String)
    (pr2 : Option ImgElem) (sel2 : Option (Option ImageFile)) (b : Bool)
    (st2 : Store) (p2 : FPage) (k3 : String) (st3 : Store) (k t i : String)
    (hpage : pageSave st it ⟨hg, tvo, pr2, sel2, b⟩ = some (st2, p2))
    (hgood : st3 (storageKey k) = some (.jsonRecord (some t) (some i))) :
    ((saveModal s).store k2 = s.store k2 ∨
      ∃ t0 i0, (saveModal s).store k2 = some (.jsonRecord (some t0) (some i0))) ∧
    (st2 k3 = st k3 ∨
      ∃ t0 i0, st2 k3 = some (.jsonRecord (some t0) (some i0))) ∧
    (parseStored (.jsonRecord (some t) (some i)) = some (some t, some i)) ∧
    (loadRecord st3 k = ⟨t, i⟩) := by
  refine ⟨?_, ?_, rfl, by simp [loadRecord, hgood, parseStored, jsOr]⟩
  · obtain ⟨st0, ck, m⟩ := s
    cases m with
    | none => exact Or.inl rfl
    | some m =>
      cases ck with
      | none => exact Or.inl rfl
      | some key =>
        by_cases hkey : key = ""
        · subst hkey; exact Or.inl rfl
        · rcases m with ⟨tv, pr, sel, d⟩
          rcases sel with _ | s2m
          · simp [saveModal, hkey, storeContent, closeModal]
            exact setItem_record_cases st0 (storageKey key) _ _ k2
          · rcases s2m with _ | f
            · simp [saveModal, hkey, storeContent, closeModal]
              exact setItem_record_cases st0 (storageKey key) _ _ k2
            · rcases pr with _ | p <;>
                simp [saveModal, hkey, storeContent, closeModal] <;>
                exact setItem_record_cases st0 (storageKey key) _ _ k2
  · rcases tvo with _ | tv2
    · rcases sel2 with _ | s2m
      · simp [pageSave] at hpage
      · rcases s2m with _ | f
        · simp [pageSave] at hpage
        · rcases pr2 with _ | p <;> simp [pageSave] at hpage
    · rcases sel2 with _ | s2m
      · simp [pageSave] at hpage
        rw [← hpage.1]
        exact setItem_record_cases st (storageKey it) _ _ k3
      · rcases s2m with _ | f
        · simp [pageSave] at hpage
          rw [← hpage.1]
          exact setItem_record_cases st (storageKey it) _ _ k3
        · rcases pr2 with _ | p <;> simp [pageSave] at hpage <;>
            rw [← hpage.1] <;>
            exact setItem_record_cases st (storageKey it) _ _ k3

/-- Witness for C10: a concrete full-page save and the record it wrote. -/
theorem saves_write_only_parseable_records_witness :
    ((saveModal pageClean).store "explanation_other"
        = pageClean.store "explanation_other" ∨
      ∃ t0 i0, (saveModal pageClean).store "explanation_other"
        = some (.jsonRecord (some t0) (some i0))) ∧
    ((setItem emptyStore (storageKey "cash")
          (.jsonRecord (some "txt") (some ""))) "explanation_other"
        = emptyStore "explanation_other" ∨
      ∃ t0 i0, (setItem emptyStore (storageKey "cash")
          (.jsonRecord (some "txt") (some ""))) "explanation_other"
        = some (.jsonRecord (some t0) (some i0))) ∧
    (parseStored (.jsonRecord (some "txt") (some ""))
      = some (some "txt", some "")) ∧
    (loadRecord (setItem emptyStore (storageKey "cash")
        (.jsonRecord (some "txt") (some ""))) "cash" = ⟨"txt", ""⟩) :=
  saves_write_only_parseable_records pageClean "explanation_other"
    emptyStore "cash" (some "Cash") (some "txt") none (some none) true
    (setItem emptyStore (storageKey "cash") (.jsonRecord (some "txt") (some "")))
    ⟨some "Cash", some "txt", none, some none, true⟩
    "explanation_other"
    (setItem emptyStore (storageKey "cash") (.jsonRecord (some "txt") (some "")))
    "cash" "txt" "" rfl (by decide)

end Annot
